import Mathlib

/-!
Shallow embedding of the meeting call-session controller
(src/components/meeting/Index.tsx) and of the insight-display selectors
(src/components/meeting/MeetingWorkspace.tsx).

Modelling conventions:

* Each React `useState` variable of `MeetingPage` becomes a field of
  `MeetingState`.  A browser event handler runs atomically and, because React
  re-renders between events, a directly-invoked handler reads the current
  state; it is modelled as a function `MeetingState → MeetingState`.
* `MediaStreamTrack.stop()` is modelled by appending the track identifier to
  the `stoppedTracks` log.
* `navigator.mediaDevices.getDisplayMedia` is an external collaborator: its
  outcome is an explicit parameter `acq : Option MediaStream`
  (`some` = the promise resolved with a stream, `none` = it rejected).
* `connectTranscription` / `disconnectTranscription` requests are recorded in
  the boolean `transcriptionConnected`.
* The assignment `videoTracks[0].onended = () => stopScreenShare()` stores a
  callback that holds the `stopScreenShare` constant of the render in which
  the handler ran; that constant closes over the `stream` value of that
  render, which is the value from *before* `setStream` took effect (React
  state setters do not mutate the current render's bindings).  The state
  field `onendedCaptured` records the stream value captured by the stored
  callback.
-/

/-- A screen-share media stream: `getVideoTracks()` and `getAudioTracks()`
return the two track lists, `getTracks()` their union.  Tracks are identified
by numbers. -/
structure MediaStream where
  videoTracks : List Nat
  audioTracks : List Nat
deriving DecidableEq, Repr

/-- JS `stream.getTracks()`. -/
def MediaStream.getTracks (s : MediaStream) : List Nat :=
  s.videoTracks ++ s.audioTracks

/-- The `useState` variables of `MeetingPage`, the track-stop log, the
transcription-connection request flag, and the stream value captured by the
currently registered `onended` callback (`none` when no callback is
registered). -/
structure MeetingState where
  isCallActive : Bool
  isMicOn : Bool
  isVideoOn : Bool
  isScreenSharing : Bool
  stream : Option MediaStream
  transcriptionConnected : Bool
  stoppedTracks : List Nat
  onendedCaptured : Option (Option MediaStream)
deriving DecidableEq, Repr

/-- The initial render: every flag false, no stream, nothing stopped. -/
def initialState : MeetingState :=
  { isCallActive := false
    isMicOn := false
    isVideoOn := false
    isScreenSharing := false
    stream := none
    transcriptionConnected := false
    stoppedTracks := []
    onendedCaptured := none }

/-- Body of `stopScreenShare` as executed with a given captured value of the
`stream` variable: if the captured stream is non-null, call `stop()` on every
one of its tracks; then `setStream(null)` and `setIsScreenSharing(false)`. -/
def stopScreenShareWith (captured : Option MediaStream) (s : MeetingState) :
    MeetingState :=
  let s1 := match captured with
    | some st => { s with stoppedTracks := s.stoppedTracks ++ st.getTracks }
    | none => s
  { s1 with stream := none, isScreenSharing := false }

/-- Direct invocation of `stopScreenShare` from the current render: the
captured `stream` is the current state's value. -/
def stopScreenShare (s : MeetingState) : MeetingState :=
  stopScreenShareWith s.stream s

/-- Continuation of `startScreenShare` after `getDisplayMedia` resolves with
`acquired`: `setStream(acquired)`, `setIsScreenSharing(true)`, and — when the
stream has at least one video track — registration of the `onended` callback.
`renderStream` is the `stream` value of the render whose handler called
`startScreenShare`; it is what the registered callback's `stopScreenShare`
closure captured. -/
def startScreenShareResolve (acquired : MediaStream)
    (renderStream : Option MediaStream) (s : MeetingState) : MeetingState :=
  let s1 := { s with stream := some acquired, isScreenSharing := true }
  if acquired.videoTracks.isEmpty then s1
  else { s1 with onendedCaptured := some renderStream }

/-- The `if (isCallActive)` branch of `toggleCall` (the stop path):
`setIsCallActive(false)`, `setIsMicOn(false)`, `setIsVideoOn(false)`, then
`stopScreenShare()` guarded by the render's `isScreenSharing`, then
`disconnectTranscription()`. -/
def toggleCallStop (s : MeetingState) : MeetingState :=
  let s1 := { s with isCallActive := false, isMicOn := false, isVideoOn := false }
  let s2 := if s.isScreenSharing then stopScreenShare s1 else s1
  { s2 with transcriptionConnected := false }

/-- Synchronous part of the `else` (start) branch of `toggleCall`, up to the
point where `await startScreenShare()` suspends on `getDisplayMedia`:
`setIsCallActive(true)`, `setIsMicOn(true)`, `connectTranscription()`. -/
def toggleCallStartSync (s : MeetingState) : MeetingState :=
  { s with isCallActive := true, isMicOn := true, transcriptionConnected := true }

/-- Whole `toggleCall` handler run to completion in one step, with the
outcome of the screen-capture acquisition passed in as `acq`.  A rejected
acquisition (`acq = none`) is caught by the `try/catch` around
`await startScreenShare()`, which only logs, so the handler never throws and
leaves the start-branch state as it was before the await. -/
def toggleCall (acq : Option MediaStream) (s : MeetingState) : MeetingState :=
  if s.isCallActive then
    toggleCallStop s
  else
    let s1 := toggleCallStartSync s
    match acq with
    | some acquired => startScreenShareResolve acquired s.stream s1
    | none => s1

/-- The `toggleMic` handler: `setIsMicOn(!isMicOn)`. -/
def toggleMic (s : MeetingState) : MeetingState :=
  { s with isMicOn := !s.isMicOn }

/-- The `toggleVideo` handler: `setIsVideoOn(!isVideoOn)`. -/
def toggleVideo (s : MeetingState) : MeetingState :=
  { s with isVideoOn := !s.isVideoOn }

/-- The `toggleScreenShare` handler run to completion in one step: stop when
sharing, otherwise `startScreenShare` with acquisition outcome `acq` (a
rejection is caught and logged, leaving the state unchanged). -/
def toggleScreenShare (acq : Option MediaStream) (s : MeetingState) :
    MeetingState :=
  if s.isScreenSharing then
    stopScreenShare s
  else
    match acq with
    | some acquired => startScreenShareResolve acquired s.stream s
    | none => s

/-- The registered `onended` callback fires (the user stopped sharing through
an OS-level control): it runs the stored `stopScreenShare` closure, whose
captured `stream` is `onendedCaptured`.  With no callback registered nothing
happens. -/
def fireOnended (s : MeetingState) : MeetingState :=
  match s.onendedCaptured with
  | some captured => stopScreenShareWith captured s
  | none => s

/-- The three sub-resource toggles, as an operation alphabet for quantifying
over toggle histories. -/
inductive ToggleOp where
  | mic
  | video
  | screen (acq : Option MediaStream)
deriving DecidableEq, Repr

/-- Run one toggle. -/
def applyToggle (s : MeetingState) : ToggleOp → MeetingState
  | .mic => toggleMic s
  | .video => toggleVideo s
  | .screen acq => toggleScreenShare acq s

/-- Run a sequence of toggles left to right. -/
def runToggles (s : MeetingState) (ops : List ToggleOp) : MeetingState :=
  ops.foldl applyToggle s

/-- Coupling invariant of the screen-share sub-state: the `isScreenSharing`
flag is set exactly when a stream reference is held.  It holds in the initial
state and is preserved by every handler run to completion. -/
def screenShareCoupled (s : MeetingState) : Prop :=
  s.isScreenSharing = s.stream.isSome

instance (s : MeetingState) : Decidable (screenShareCoupled s) :=
  inferInstanceAs (Decidable (s.isScreenSharing = s.stream.isSome))

/-! Insight-display selectors of `MeetingWorkspace`. -/

/-- One entry of the `emotions` array: `{ emotion: string; level: number }`. -/
structure EmotionLevel where
  emotion : String
  level : Int
deriving DecidableEq, Repr

/-- The published phi3 insight result, as consumed by `MeetingWorkspace`. -/
structure Phi3Insights where
  emotions : List EmotionLevel
  painPoints : List String
  objections : List String
  recommendations : List String
  nextActions : List String
  aiCoaching : String
  callStage : String
deriving DecidableEq, Repr

/-- The JS comparator `(a, b) => b.level - a.level` orders descending by
level; as a boolean "may come before" relation for the stable sort it reads:
`a` may precede `b` when `b.level ≤ a.level`. -/
def emotionDescLe (a b : EmotionLevel) : Bool :=
  b.level ≤ a.level

/-- The `currentEmotion` selector:
`phi3Insights?.emotions?.length > 0 ? [...emotions].sort((a,b) => b.level - a.level)[0].emotion : "Interested"`.
`Array.prototype.sort` is stable (ECMAScript 2019), modelled by
`List.mergeSort` with `emotionDescLe`; the sorted array is empty exactly when
`emotions.length > 0` fails. -/
def currentEmotion (phi3 : Option Phi3Insights) : String :=
  match phi3 with
  | none => "Interested"
  | some p =>
    match p.emotions.mergeSort emotionDescLe with
    | [] => "Interested"
    | e :: _ => e.emotion

/-- The `clientInterest` selector:
`phi3Insights?.emotions?.find(e => e.emotion === "Interest")?.level || 75`.
The JS `||` takes the fallback 75 when the left side is absent
(no insights, or no emotion named "Interest") or is the falsy number 0. -/
def clientInterest (phi3 : Option Phi3Insights) : Int :=
  match phi3 with
  | none => 75
  | some p =>
    match p.emotions.find? (fun e => e.emotion == "Interest") with
    | none => 75
    | some e => if e.level = 0 then 75 else e.level

/-- A concrete capture with one video and one audio track, for scenario
evaluation. -/
def demoStream1 : MediaStream :=
  { videoTracks := [0], audioTracks := [1] }

/-- A second concrete capture, distinct from `demoStream1`. -/
def demoStream2 : MediaStream :=
  { videoTracks := [2], audioTracks := [3] }

/-- The sample insights of `MeetingPage`, packaged as a published phi3
result, for concrete evaluation of the selectors. -/
def demoInsights : Phi3Insights :=
  { emotions :=
      [ { emotion := "Interest", level := 75 }
      , { emotion := "Confusion", level := 25 }
      , { emotion := "Satisfaction", level := 60 } ]
    painPoints := []
    objections := []
    recommendations := []
    nextActions := []
    aiCoaching := ""
    callStage := "" }

/-- A published result whose "Interest" emotion has level 0. -/
def zeroInterestInsights : Phi3Insights :=
  { emotions := [ { emotion := "Interest", level := 0 } ]
    painPoints := []
    objections := []
    recommendations := []
    nextActions := []
    aiCoaching := ""
    callStage := "" }

/-! Helper lemmas shared by the claim theorems. -/

theorem stopScreenShareWith_frame (c : Option MediaStream) (s : MeetingState) :
    (stopScreenShareWith c s).isCallActive = s.isCallActive ∧
    (stopScreenShareWith c s).isMicOn = s.isMicOn ∧
    (stopScreenShareWith c s).isVideoOn = s.isVideoOn ∧
    (stopScreenShareWith c s).transcriptionConnected = s.transcriptionConnected ∧
    (stopScreenShareWith c s).stream = none ∧
    (stopScreenShareWith c s).isScreenSharing = false ∧
    (stopScreenShareWith c s).onendedCaptured = s.onendedCaptured := by
  cases c <;> simp [stopScreenShareWith]

theorem startScreenShareResolve_frame (a : MediaStream)
    (r : Option MediaStream) (s : MeetingState) :
    (startScreenShareResolve a r s).isCallActive = s.isCallActive ∧
    (startScreenShareResolve a r s).isMicOn = s.isMicOn ∧
    (startScreenShareResolve a r s).isVideoOn = s.isVideoOn ∧
    (startScreenShareResolve a r s).transcriptionConnected
      = s.transcriptionConnected ∧
    (startScreenShareResolve a r s).stream = some a ∧
    (startScreenShareResolve a r s).isScreenSharing = true ∧
    (startScreenShareResolve a r s).stoppedTracks = s.stoppedTracks := by
  simp only [startScreenShareResolve]
  split <;> simp

theorem applyToggle_isCallActive (s : MeetingState) (op : ToggleOp) :
    (applyToggle s op).isCallActive = s.isCallActive := by
  cases op with
  | mic => rfl
  | video => rfl
  | screen acq =>
    simp only [applyToggle, toggleScreenShare, stopScreenShare]
    split
    · exact (stopScreenShareWith_frame s.stream s).1
    · cases acq with
      | none => rfl
      | some a => exact (startScreenShareResolve_frame a s.stream _).1

theorem applyToggle_coupled (s : MeetingState) (op : ToggleOp)
    (h : screenShareCoupled s) : screenShareCoupled (applyToggle s op) := by
  cases op with
  | mic => simpa [screenShareCoupled, applyToggle, toggleMic] using h
  | video => simpa [screenShareCoupled, applyToggle, toggleVideo] using h
  | screen acq =>
    simp only [applyToggle, toggleScreenShare, stopScreenShare]
    split
    · obtain ⟨-, -, -, -, h5, h6, -⟩ := stopScreenShareWith_frame s.stream s
      simp [screenShareCoupled, h5, h6]
    · cases acq with
      | none => exact h
      | some a =>
        obtain ⟨-, -, -, -, h5, h6, -⟩ :=
          startScreenShareResolve_frame a s.stream s
        simp [screenShareCoupled, h5, h6]

theorem runToggles_isCallActive (ops : List ToggleOp) (s : MeetingState) :
    (runToggles s ops).isCallActive = s.isCallActive := by
  induction ops generalizing s with
  | nil => rfl
  | cons op ops ih =>
    show (runToggles (applyToggle s op) ops).isCallActive = s.isCallActive
    rw [ih (applyToggle s op), applyToggle_isCallActive]

theorem runToggles_coupled (ops : List ToggleOp) (s : MeetingState)
    (h : screenShareCoupled s) : screenShareCoupled (runToggles s ops) := by
  induction ops generalizing s with
  | nil => exact h
  | cons op ops ih => exact ih (applyToggle s op) (applyToggle_coupled s op h)

theorem toggleCallStop_fields (s : MeetingState) (h : screenShareCoupled s) :
    (toggleCallStop s).isCallActive = false ∧
    (toggleCallStop s).isMicOn = false ∧
    (toggleCallStop s).isVideoOn = false ∧
    (toggleCallStop s).transcriptionConnected = false ∧
    (toggleCallStop s).isScreenSharing = false ∧
    (toggleCallStop s).stream = none ∧
    ∀ st, s.stream = some st →
      (toggleCallStop s).stoppedTracks = s.stoppedTracks ++ st.getTracks := by
  unfold screenShareCoupled at h
  cases hst : s.stream with
  | none =>
    have hsh : s.isScreenSharing = false := by rw [h, hst]; rfl
    simp [toggleCallStop, hsh, hst]
  | some st =>
    have hsh : s.isScreenSharing = true := by rw [h, hst]; rfl
    simp [toggleCallStop, hsh, stopScreenShare, stopScreenShareWith, hst]

/-! Claim theorems. -/

/-- C1: for every Active session, regardless of the prior sequence and order
of toggleMic/toggleVideo/toggleScreenShare calls, the stop branch of
`toggleCall` leaves every sub-resource inactive: the call, mic and video
flags are false, the transcription client is disconnected, the screen-share
flag is false and the stream reference cleared, and if a stream was held
every one of its tracks has been stopped.  The hypotheses say the starting
state is Active and satisfies the screen-share coupling invariant, which
holds of every state the handlers can reach. -/
theorem c1_stop_drives_all_resources_inactive (s0 : MeetingState)
    (ops : List ToggleOp) (acq : Option MediaStream)
    (hc : screenShareCoupled s0) (ha : s0.isCallActive = true) :
    ((toggleCall acq (runToggles s0 ops)).isCallActive = false ∧
     (toggleCall acq (runToggles s0 ops)).isMicOn = false ∧
     (toggleCall acq (runToggles s0 ops)).isVideoOn = false ∧
     (toggleCall acq (runToggles s0 ops)).transcriptionConnected = false ∧
     (toggleCall acq (runToggles s0 ops)).isScreenSharing = false ∧
     (toggleCall acq (runToggles s0 ops)).stream = none) ∧
    ∀ st, (runToggles s0 ops).stream = some st →
      ∀ t ∈ st.getTracks, t ∈ (toggleCall acq (runToggles s0 ops)).stoppedTracks := by
  have hact : (runToggles s0 ops).isCallActive = true := by
    rw [runToggles_isCallActive, ha]
  have hcpl : screenShareCoupled (runToggles s0 ops) := runToggles_coupled ops s0 hc
  have hstop : toggleCall acq (runToggles s0 ops) = toggleCallStop (runToggles s0 ops) := by
    simp [toggleCall, hact]
  obtain ⟨h1, h2, h3, h4, h5, h6, h7⟩ := toggleCallStop_fields (runToggles s0 ops) hcpl
  rw [hstop]
  refine ⟨⟨h1, h2, h3, h4, h5, h6⟩, ?_⟩
  intro st hst t ht
  rw [h7 st hst]
  exact List.mem_append_right _ ht

/-- Witness for C1: a concrete Active session (call started with
`demoStream1` acquired), a toggle history exercising all three toggles
(screen share switched to `demoStream2`), then stop. -/
theorem c1_stop_drives_all_resources_inactive_witness :
    ((toggleCall none (runToggles (toggleCall (some demoStream1) initialState)
        [ToggleOp.mic, ToggleOp.video, ToggleOp.screen none,
         ToggleOp.screen (some demoStream2)])).isCallActive = false ∧
     (toggleCall none (runToggles (toggleCall (some demoStream1) initialState)
        [ToggleOp.mic, ToggleOp.video, ToggleOp.screen none,
         ToggleOp.screen (some demoStream2)])).isMicOn = false ∧
     (toggleCall none (runToggles (toggleCall (some demoStream1) initialState)
        [ToggleOp.mic, ToggleOp.video, ToggleOp.screen none,
         ToggleOp.screen (some demoStream2)])).isVideoOn = false ∧
     (toggleCall none (runToggles (toggleCall (some demoStream1) initialState)
        [ToggleOp.mic, ToggleOp.video, ToggleOp.screen none,
         ToggleOp.screen (some demoStream2)])).transcriptionConnected = false ∧
     (toggleCall none (runToggles (toggleCall (some demoStream1) initialState)
        [ToggleOp.mic, ToggleOp.video, ToggleOp.screen none,
         ToggleOp.screen (some demoStream2)])).isScreenSharing = false ∧
     (toggleCall none (runToggles (toggleCall (some demoStream1) initialState)
        [ToggleOp.mic, ToggleOp.video, ToggleOp.screen none,
         ToggleOp.screen (some demoStream2)])).stream = none) ∧
    ∀ st, (runToggles (toggleCall (some demoStream1) initialState)
        [ToggleOp.mic, ToggleOp.video, ToggleOp.screen none,
         ToggleOp.screen (some demoStream2)]).stream = some st →
      ∀ t ∈ st.getTracks,
        t ∈ (toggleCall none (runToggles (toggleCall (some demoStream1) initialState)
          [ToggleOp.mic, ToggleOp.video, ToggleOp.screen none,
           ToggleOp.screen (some demoStream2)])).stoppedTracks :=
  c1_stop_drives_all_resources_inactive (toggleCall (some demoStream1) initialState)
    [ToggleOp.mic, ToggleOp.video, ToggleOp.screen none,
     ToggleOp.screen (some demoStream2)] none (by decide) (by decide)

/-- C2 fails on the code: `start()` (first `toggleCall`, suspended at
`await getDisplayMedia`), then `stop()` (second `toggleCall`, which takes the
stop branch and sees no screen share yet), then the acquisition resolves.
The resolution continuation unconditionally runs `setStream`/
`setIsScreenSharing(true)` — nothing checks that the call has ended — so the
Ended session retains the live stream (`stream = some demoStream1`,
`isScreenSharing = true`) and not a single track has been stopped, where the
claim requires the late resource to be released immediately.  The captured
render stream of the resolution is `initialState.stream` (the first click's
render). -/
theorem c2_late_resolution_is_retained :
    (startScreenShareResolve demoStream1 initialState.stream
        (toggleCall none (toggleCallStartSync initialState))).isCallActive = false ∧
    (startScreenShareResolve demoStream1 initialState.stream
        (toggleCall none (toggleCallStartSync initialState))).stream = some demoStream1 ∧
    (startScreenShareResolve demoStream1 initialState.stream
        (toggleCall none (toggleCallStartSync initialState))).isScreenSharing = true ∧
    (startScreenShareResolve demoStream1 initialState.stream
        (toggleCall none (toggleCallStartSync initialState))).stoppedTracks = [] := by
  decide

/-- C3 as stated is false on the code: after `toggleCall` has started and
then stopped the call, a third `toggleCall` on the very same instance takes
the start branch again and makes `isCallActive` true. -/
theorem c3_counterexample_restart_same_instance :
    (toggleCall none (toggleCall none (toggleCall none initialState))).isCallActive
      = true := by
  decide

/-- C3 amended: `stop()` always leaves the controller inactive, but the code
has no distinct Ended state — the Idle and Ended forms coincide
(`isCallActive = false`), so a subsequent `toggleCall` on the stopped
instance takes the start branch and makes the same instance Active again,
with the mic re-enabled and a new transcription connect requested. -/
theorem c3_amended_stop_then_toggle_reactivates (s : MeetingState)
    (acq acq2 : Option MediaStream) (h : s.isCallActive = true) :
    (toggleCall acq s).isCallActive = false ∧
    (toggleCall acq2 (toggleCall acq s)).isCallActive = true ∧
    (toggleCall acq2 (toggleCall acq s)).isMicOn = true ∧
    (toggleCall acq2 (toggleCall acq s)).transcriptionConnected = true := by
  have hstop : toggleCall acq s = toggleCallStop s := by simp [toggleCall, h]
  have h1 : (toggleCall acq s).isCallActive = false := by
    rw [hstop]
    unfold toggleCallStop
    split <;> cases hst : s.stream <;> simp [stopScreenShare, stopScreenShareWith, hst]
  refine ⟨h1, ?_⟩
  generalize hT : toggleCall acq s = T at h1 ⊢
  have hstart : toggleCall acq2 T
      = match acq2 with
        | some acquired =>
          startScreenShareResolve acquired T.stream (toggleCallStartSync T)
        | none => toggleCallStartSync T := by
    simp [toggleCall, h1]
  rw [hstart]
  cases acq2 with
  | none => simp [toggleCallStartSync]
  | some a =>
    obtain ⟨f1, f2, -, f4, -, -, -⟩ :=
      startScreenShareResolve_frame a T.stream (toggleCallStartSync T)
    simp only [f1, f2, f4]
    simp [toggleCallStartSync]

/-- Witness for the amended C3 at a concrete Active state. -/
theorem c3_amended_witness :
    (toggleCall none (toggleCall (some demoStream1) initialState)).isCallActive = false ∧
    (toggleCall (some demoStream2) (toggleCall none (toggleCall (some demoStream1) initialState))).isCallActive = true ∧
    (toggleCall (some demoStream2) (toggleCall none (toggleCall (some demoStream1) initialState))).isMicOn = true ∧
    (toggleCall (some demoStream2) (toggleCall none (toggleCall (some demoStream1) initialState))).transcriptionConnected = true :=
  c3_amended_stop_then_toggle_reactivates
    (toggleCall (some demoStream1) initialState) none (some demoStream2) (by decide)

/-- C4: when the screen-capture acquisition rejects during start
(`acq = none`), the rejection is caught inside `toggleCall` (the model
function is total: it returns a state, never an error), the session still
becomes Active and usable — `isCallActive` and `isMicOn` are true and the
transcription connect has been requested — and only the screen-share
sub-state stays in its inactive form. -/
theorem c4_acquisition_failure_session_usable (s : MeetingState)
    (hIdle : s.isCallActive = false) (hShare : s.isScreenSharing = false)
    (hStream : s.stream = none) :
    (toggleCall none s).isCallActive = true ∧
    (toggleCall none s).isMicOn = true ∧
    (toggleCall none s).transcriptionConnected = true ∧
    (toggleCall none s).isScreenSharing = false ∧
    (toggleCall none s).stream = none := by
  simp [toggleCall, hIdle, toggleCallStartSync, hShare, hStream]

/-- Witness for C4 at the initial (Idle) state. -/
theorem c4_acquisition_failure_witness :
    (toggleCall none initialState).isCallActive = true ∧
    (toggleCall none initialState).isMicOn = true ∧
    (toggleCall none initialState).transcriptionConnected = true ∧
    (toggleCall none initialState).isScreenSharing = false ∧
    (toggleCall none initialState).stream = none :=
  c4_acquisition_failure_session_usable initialState rfl rfl rfl

/-- C5 fails on the code: acquire a capture via `toggleScreenShare`, then the
user ends sharing through an OS-level control and the `onended` callback
fires.  The flags are reconciled (`isScreenSharing` false, reference
cleared), but the callback runs the `stopScreenShare` closure of the render
that requested the capture, whose `stream` variable was still null, so not
one track of the held stream is stopped (`stoppedTracks` stays empty) —
where the claim requires every track of the held stream to be stopped. -/
theorem c5_onended_reconciles_flags_but_stops_no_track :
    (fireOnended (toggleScreenShare (some demoStream1) initialState)).isScreenSharing = false ∧
    (fireOnended (toggleScreenShare (some demoStream1) initialState)).stream = none ∧
    (toggleScreenShare (some demoStream1) initialState).stream = some demoStream1 ∧
    (fireOnended (toggleScreenShare (some demoStream1) initialState)).stoppedTracks = [] := by
  decide

/-- C6 fails on the code: with `demoStream1` held (acquired through
`toggleScreenShare`), starting a call auto-starts screen share and
`startScreenShare` acquires `demoStream2` while `demoStream1` is still held.
The new capture simply overwrites the old reference — no track of
`demoStream1` is ever stopped (`stoppedTracks` stays empty) — violating the
single-owner invariant that a new capture is acquired only after the held
one has been stopped. -/
theorem c6_second_acquisition_overwrites_held_stream :
    (toggleScreenShare (some demoStream1) initialState).stream = some demoStream1 ∧
    (toggleCall (some demoStream2)
        (toggleScreenShare (some demoStream1) initialState)).stream = some demoStream2 ∧
    (toggleCall (some demoStream2)
        (toggleScreenShare (some demoStream1) initialState)).stoppedTracks = [] := by
  decide

/-- C9: `toggleMic` and `toggleVideo` are unguarded by session state: on
every state (Idle, Active or ended alike) `toggleMic` inverts `isMicOn` and
changes no other field, and `toggleVideo` inverts `isVideoOn` and changes no
other field. -/
theorem c9_mic_video_toggles_are_unguarded_frame (s : MeetingState) :
    ((toggleMic s).isMicOn = !s.isMicOn ∧
     (toggleMic s).isCallActive = s.isCallActive ∧
     (toggleMic s).isVideoOn = s.isVideoOn ∧
     (toggleMic s).isScreenSharing = s.isScreenSharing ∧
     (toggleMic s).stream = s.stream ∧
     (toggleMic s).transcriptionConnected = s.transcriptionConnected ∧
     (toggleMic s).stoppedTracks = s.stoppedTracks ∧
     (toggleMic s).onendedCaptured = s.onendedCaptured) ∧
    ((toggleVideo s).isVideoOn = !s.isVideoOn ∧
     (toggleVideo s).isCallActive = s.isCallActive ∧
     (toggleVideo s).isMicOn = s.isMicOn ∧
     (toggleVideo s).isScreenSharing = s.isScreenSharing ∧
     (toggleVideo s).stream = s.stream ∧
     (toggleVideo s).transcriptionConnected = s.transcriptionConnected ∧
     (toggleVideo s).stoppedTracks = s.stoppedTracks ∧
     (toggleVideo s).onendedCaptured = s.onendedCaptured) := by
  simp [toggleMic, toggleVideo]

/-- C10: `stopScreenShare` is idempotent.  When no stream is held (and the
sharing flag is accordingly down, as it is in every reachable state with a
null stream) it is a no-op leaving the state entirely unchanged; and on every
state whatsoever, running it twice yields exactly the state of running it
once. -/
theorem c10_stopScreenShare_idempotent (s : MeetingState) :
    (s.stream = none → s.isScreenSharing = false → stopScreenShare s = s) ∧
    stopScreenShare (stopScreenShare s) = stopScreenShare s := by
  obtain ⟨a, m, v, sh, st, t, k, o⟩ := s
  constructor
  · intro h1 h2
    simp only at h1 h2
    subst h1; subst h2
    simp [stopScreenShare, stopScreenShareWith]
  · cases st <;> simp [stopScreenShare, stopScreenShareWith]

/-- Witness for C10 at the initial state. -/
theorem c10_stopScreenShare_idempotent_witness :
    stopScreenShare initialState = initialState ∧
    stopScreenShare (stopScreenShare initialState) = stopScreenShare initialState :=
  ⟨(c10_stopScreenShare_idempotent initialState).1 rfl rfl,
   (c10_stopScreenShare_idempotent initialState).2⟩

theorem emotionDescLe_trans (a b c : EmotionLevel) :
    emotionDescLe a b → emotionDescLe b c → emotionDescLe a c := by
  simp only [emotionDescLe, decide_eq_true_eq]
  omega

theorem emotionDescLe_total (a b : EmotionLevel) :
    emotionDescLe a b || emotionDescLe b a := by
  simp only [emotionDescLe, Bool.or_eq_true, decide_eq_true_eq]
  omega

/-- C7: for every published non-empty emotions list the selected current
emotion is an emotion of the list whose level is maximal (highest value
wins); with no published result or an empty list the default "Interested" is
selected. -/
theorem c7_currentEmotion_is_maximal (p : Phi3Insights) :
    (currentEmotion none = "Interested" ∧
     (p.emotions = [] → currentEmotion (some p) = "Interested")) ∧
    (p.emotions ≠ [] →
      ∃ e ∈ p.emotions, currentEmotion (some p) = e.emotion ∧
        ∀ e2 ∈ p.emotions, e2.level ≤ e.level) := by
  refine ⟨⟨rfl, ?_⟩, ?_⟩
  · intro h
    simp [currentEmotion, h]
  · intro h
    obtain ⟨e, rest, hl⟩ :
        ∃ e rest, p.emotions.mergeSort emotionDescLe = e :: rest := by
      cases hm : p.emotions.mergeSort emotionDescLe with
      | nil =>
        exfalso
        apply h
        have := congrArg List.length hm
        rw [List.length_mergeSort] at this
        exact List.eq_nil_of_length_eq_zero this
      | cons e rest => exact ⟨e, rest, rfl⟩
    have hsorted :=
      List.sorted_mergeSort emotionDescLe_trans emotionDescLe_total p.emotions
    rw [hl] at hsorted
    have hmem : e ∈ p.emotions := by
      have hm2 : e ∈ p.emotions.mergeSort emotionDescLe := by
        rw [hl]
        exact List.mem_cons_self e rest
      exact List.mem_mergeSort.mp hm2
    refine ⟨e, hmem, ?_, ?_⟩
    · simp [currentEmotion, hl]
    · intro e2 h2
      have h2m : e2 ∈ e :: rest := by
        rw [← hl, List.mem_mergeSort]
        exact h2
      rcases List.mem_cons.mp h2m with h2e | h2r
      · rw [h2e]
      · have := (List.pairwise_cons.mp hsorted).1 e2 h2r
        simpa [emotionDescLe] using this

/-- Witness for C7 at the sample emotions list. -/
theorem c7_currentEmotion_is_maximal_witness :
    ∃ e ∈ demoInsights.emotions, currentEmotion (some demoInsights) = e.emotion ∧
      ∀ e2 ∈ demoInsights.emotions, e2.level ≤ e.level :=
  (c7_currentEmotion_is_maximal demoInsights).2 (by decide)

/-- C8: the displayed client interest is the level of the emotion named
"Interest" when that level is non-zero and the fallback 75 otherwise (also
when no "Interest" entry or no result is published); in particular a
published "Interest" of level 0 displays as 75, and the display can never
show an interest of 0. -/
theorem c8_clientInterest_zero_falls_back (p : Phi3Insights)
    (phi3 : Option Phi3Insights) :
    (∀ e, p.emotions.find? (fun x => x.emotion == "Interest") = some e →
        (e.level ≠ 0 → clientInterest (some p) = e.level) ∧
        (e.level = 0 → clientInterest (some p) = 75)) ∧
    (p.emotions.find? (fun x => x.emotion == "Interest") = none →
        clientInterest (some p) = 75) ∧
    clientInterest phi3 ≠ 0 := by
  refine ⟨?_, ?_, ?_⟩
  · intro e he
    constructor
    · intro hz
      simp [clientInterest, he, hz]
    · intro hz
      simp [clientInterest, he, hz]
  · intro hn
    simp [clientInterest, hn]
  · cases phi3 with
    | none => simp [clientInterest]
    | some q =>
      simp only [clientInterest]
      cases hf : q.emotions.find? (fun x => x.emotion == "Interest") with
      | none => simp
      | some e =>
        by_cases hz : e.level = 0 <;> simp [hz]

/-- Witness for C8: the concrete published result whose "Interest" level is
0 displays 75 and not 0. -/
theorem c8_clientInterest_zero_falls_back_witness :
    clientInterest (some zeroInterestInsights) = 75 ∧
    clientInterest (some zeroInterestInsights) ≠ 0 :=
  ⟨((c8_clientInterest_zero_falls_back zeroInterestInsights
      (some zeroInterestInsights)).1
      { emotion := "Interest", level := 0 } (by decide)).2 rfl,
   (c8_clientInterest_zero_falls_back zeroInterestInsights
      (some zeroInterestInsights)).2.2⟩
